import Mathlib

/-!
Shallow embedding of the rustify download pipeline
(src/main.rs, src/processor/mod.rs, src/processor/loader.rs).

Machine integers of the source are modelled as `Nat` (no arithmetic in the
source can overflow the ranges involved: delays are small second counts).
Spotify ids, file ids and decryption keys are opaque values in the source
and are modelled as `Nat`.  Fallible operations return `Except`.
The remote session, the filesystem and the external tagging process are the
source's external collaborators; they enter the embedding as function-valued
parameters so that every definition stays executable.
-/

namespace Rustify

instance {ε α : Type} [DecidableEq ε] [DecidableEq α] : DecidableEq (Except ε α) := fun a b =>
  match a, b with
  | .ok x, .ok y =>
    if h : x = y then .isTrue (congrArg Except.ok h)
    else .isFalse (fun hh => h (Except.ok.inj hh))
  | .error x, .error y =>
    if h : x = y then .isTrue (congrArg Except.error h)
    else .isFalse (fun hh => h (Except.error.inj hh))
  | .ok _, .error _ => .isFalse (fun hh => Except.noConfusion hh)
  | .error _, .ok _ => .isFalse (fun hh => Except.noConfusion hh)

/-- The audio formats of `librespot_metadata::audio::AudioFileFormat`
(external dependency), as matched by loader.rs. -/
inductive AudioFileFormat where
  | OGG_VORBIS_96
  | OGG_VORBIS_160
  | OGG_VORBIS_320
  | MP3_256
  | MP3_320
  | MP3_160
  | MP3_96
  | MP3_160_ENC
  | AAC_24
  | AAC_48
  | AAC_160
  | AAC_320
  | MP4_128
  | OTHER5
  | FLAC_FLAC
  | UNKNOWN_FORMAT
  deriving DecidableEq, Repr

namespace AudioFiles

/-- Model of `AudioFiles::is_ogg_vorbis` of librespot_metadata (external dependency). -/
def is_ogg_vorbis : AudioFileFormat → Bool
  | .OGG_VORBIS_96 | .OGG_VORBIS_160 | .OGG_VORBIS_320 => true
  | _ => false

/-- Model of `AudioFiles::is_mp3` of librespot_metadata (external dependency). -/
def is_mp3 : AudioFileFormat → Bool
  | .MP3_256 | .MP3_320 | .MP3_160 | .MP3_96 | .MP3_160_ENC => true
  | _ => false

/-- Model of `AudioFiles::is_flac` of librespot_metadata (external dependency). -/
def is_flac : AudioFileFormat → Bool
  | .FLAC_FLAC => true
  | _ => false

end AudioFiles

/-- The error values the pipeline distinguishes.  The source uses
`librespot_core::Error` (a kind plus message); each constructor below models
one distinct error construction site.  `aesKeyDenied` models an error whose
source downcasts to `AudioKeyError::AesKey`, the one kind
`process_single_item` treats specially (mod.rs:144).  `ioError` models an
`io::Error` converted into the library error, such as the one
`fs::create_dir_all` can return at mod.rs:121; it is distinct from the
`internal` error carrying the fatal backoff message. -/
inductive Error where
  | unavailable (msg : String)
  | not_found (msg : String)
  | internal (msg : String)
  | aesKeyDenied
  | remote (msg : String)
  | ioError (msg : String)
  deriving DecidableEq, Repr

/-- Model of `librespot_metadata::audio::UniqueFields` (external dependency), as
destructured in mod.rs:181-191: artist names and album for tracks, show
name for episodes. -/
inductive UniqueFields where
  | Track (artists : List String) (album : String)
  | Episode (show_name : String)
  deriving DecidableEq, Repr

/-- Model of `librespot_metadata::audio::AudioItem`, restricted to the fields the
pipeline reads.  `availability` models the source's
`Result<(), UnavailabilityReason>`: `none` means available, `some reason`
carries the unavailability reason.  `files` models the encoding → file-id
map (`AudioFiles`) as an association list. -/
structure AudioItem where
  track_id : Nat
  uri : String
  name : String
  availability : Option String
  files : List (AudioFileFormat × Nat)
  alternatives : Option (List Nat)
  covers : List String
  unique_fields : UniqueFields
  deriving DecidableEq, Repr

/-- The remote session collaborator (out of scope in the design; §6 of the
spec).  `get_file` models `AudioItem::get_file`, `open_file` models
`AudioFile::open` returning the complete encrypted byte stream,
`audio_key` models `session.audio_key().request`, and `decrypt` models the
pure decryption primitive `AudioDecrypt` applied to the whole buffer. -/
structure Session where
  get_file : Nat → Except Error AudioItem
  open_file : Nat → Nat → Except Error (List Nat)
  audio_key : Nat → Nat → Except Error Nat
  decrypt : Nat → List Nat → List Nat

/-- Lookup in the encoding → file-id map (`audio_item.files.get(format)`). -/
def filesGet (files : List (AudioFileFormat × Nat)) (format : AudioFileFormat) : Option Nat :=
  (files.find? (fun p => p.1 == format)).map (fun p => p.2)

/-- Predicate `x.availability.is_ok()` of loader.rs:35. -/
def availabilityOk (x : AudioItem) : Bool :=
  x.availability.isNone

/-- Embedding of `TrackLoader::find_available_alternative` (loader.rs:21-42).
If the item is unavailable: `none`.  If it has files: the item itself.
Otherwise, if it lists alternatives, the source races the alternative
fetches (`FuturesUnordered`, first success wins); the embedding
deterministically sequentialises that race in list order: the first
alternative id whose fetch resolves `Ok` and whose item reports itself
available.  No alternatives: `none`. -/
def find_available_alternative (s : Session) (audio_item : AudioItem) : Option AudioItem :=
  if audio_item.availability.isSome then
    none
  else if !audio_item.files.isEmpty then
    some audio_item
  else
    match audio_item.alternatives with
    | some alternatives =>
        (((alternatives.filterMap (fun alt_id => (s.get_file alt_id).toOption)).filter
          (fun x => availabilityOk x)).head?)
    | none => none

/-- Embedding of `TrackLoader::stream_data_rate` (loader.rs:44-67): expected bytes per
second for each format; `UNKNOWN_FORMAT` has no rate. -/
def stream_data_rate (format : AudioFileFormat) : Option Nat :=
  match format with
  | .OGG_VORBIS_96 => some (12 * 1024)
  | .OGG_VORBIS_160 => some (20 * 1024)
  | .OGG_VORBIS_320 => some (40 * 1024)
  | .MP3_256 => some (32 * 1024)
  | .MP3_320 => some (40 * 1024)
  | .MP3_160 => some (20 * 1024)
  | .MP3_96 => some (12 * 1024)
  | .MP3_160_ENC => some (20 * 1024)
  | .AAC_24 => some (3 * 1024)
  | .AAC_48 => some (6 * 1024)
  | .AAC_160 => some (20 * 1024)
  | .AAC_320 => some (40 * 1024)
  | .MP4_128 => some (16 * 1024)
  | .OTHER5 => some (40 * 1024)
  | .FLAC_FLAC => some (112 * 1024)
  | .UNKNOWN_FORMAT => none

/-- The fixed format priority list of loader.rs:87-95, in source order. -/
def formats : List AudioFileFormat :=
  [.OGG_VORBIS_320, .MP3_320, .MP3_256, .OGG_VORBIS_160, .MP3_160, .OGG_VORBIS_96, .MP3_96]

/-- The encoding selection of loader.rs:97-111: the first format of the
priority list present in the file map, together with its file id. -/
def select_format (files : List (AudioFileFormat × Nat)) : Option (AudioFileFormat × Nat) :=
  formats.findSome? (fun format =>
    match filesGet files format with
    | some file_id => some (format, file_id)
    | none => none)

/-- Structure `LoadedTrackData` (loader.rs:10-14). -/
structure LoadedTrackData where
  audio_item : AudioItem
  audio_buffer : List Nat
  audio_file_format : AudioFileFormat
  deriving DecidableEq, Repr

/-- Embedding of `TrackLoader::load_track` (loader.rs:69-172).  Fetch the item, resolve
availability/alternatives, select the encoding, fetch the rate hint, open
the encrypted file, fetch the key, decrypt.  Lines 157-161 of the source
compute a copy of the decrypted buffer with the first 0xa7 bytes dropped
for Ogg Vorbis formats, but the `let` there shadows the outer variable
inside the `if` block, so the stripped copy is discarded and the outer,
unstripped buffer is returned; `_shadowed` reproduces that dead binding. -/
def load_track (s : Session) (spotify_id : Nat) : Except Error LoadedTrackData :=
  match s.get_file spotify_id with
  | .error e => .error e
  | .ok audio =>
    match find_available_alternative s audio with
    | none => .error (.unavailable "Item is not available")
    | some audio_item =>
      match select_format audio_item.files with
      | none =>
          .error (.unavailable ("<" ++ audio_item.name ++ "> is not available in any supported format"))
      | some (format, file_id) =>
        match stream_data_rate format with
        | none => .error (.unavailable "Stream data rate not available")
        | some bytes_per_second =>
          match s.open_file file_id bytes_per_second with
          | .error e => .error e
          | .ok buffer =>
            match s.audio_key spotify_id file_id with
            | .error e => .error e
            | .ok key =>
              let decrypted_buffer := s.decrypt key buffer
              let _shadowed :=
                if AudioFiles.is_ogg_vorbis format then
                  List.drop 0xa7 decrypted_buffer
                else decrypted_buffer
              .ok { audio_item := audio_item,
                    audio_buffer := decrypted_buffer,
                    audio_file_format := format }

/-- Modelled from the spec (§4.4 step 6): the intended result buffer, with
the fixed 0xa7-byte proprietary header removed for Ogg Vorbis formats.
Stated separately so it can be compared with what `load_track` returns. -/
def spec_stripped_buffer (format : AudioFileFormat) (decrypted_buffer : List Nat) : List Nat :=
  if AudioFiles.is_ogg_vorbis format then
    List.drop 0xa7 decrypted_buffer
  else decrypted_buffer

/-- Model of the `sanitize_filename::sanitize` crate call (external
dependency): characters unsafe for filesystem paths are removed. -/
def illegalChar (c : Char) : Bool :=
  c == '/' || c == '\\' || c == '?' || c == '*' || c == ':' ||
  c == '|' || c == '"' || c == '<' || c == '>'

/-- Model of `sanitize_filename::sanitize` (external dependency). -/
def sanitize (str : String) : String :=
  (str.toList.filter (fun c => !(illegalChar c))).asString

/-- Model of Rust's `str::trim`: surrounding spaces removed. -/
def trimString (str : String) : String :=
  (((str.toList.dropWhile (fun c => c == ' ')).reverse.dropWhile
    (fun c => c == ' ')).reverse).asString

/-- Model of Rust's `Vec::join` on strings. -/
def joinWith (sep : String) : List String → String
  | [] => ""
  | [x] => x
  | x :: xs => x ++ sep ++ joinWith sep xs

/-- The `origins` destructured from `unique_fields` (mod.rs:181-191). -/
def origins_of : UniqueFields → List String
  | .Track artists _ => artists
  | .Episode _ => []

/-- The `group_name` destructured from `unique_fields` (mod.rs:181-191). -/
def group_name_of : UniqueFields → String
  | .Track _ album => album
  | .Episode show_name => show_name

/-- The `extension` chosen in mod.rs:203-208 from the audio format;
`none` models the `Unsupported audio format` fall-through arm. -/
def extensionFor (format : AudioFileFormat) : Option String :=
  if AudioFiles.is_ogg_vorbis format then some "ogg"
  else if AudioFiles.is_mp3 format then some "mp3"
  else if AudioFiles.is_flac format then some "flac"
  else none

/-- The `full_path` computed in mod.rs:199-210:
`dir_path.join(format!("{}.{}", sanitize(format!("{} - {}", name, origins.join(", "))).trim(), extension))`. -/
def dest_path (dir_path : String) (audio_item : AudioItem) (ext : String) : String :=
  dir_path ++ "/" ++
    trimString (sanitize (audio_item.name ++ " - " ++
      joinWith ", " (origins_of audio_item.unique_fields))) ++
    "." ++ ext

/-- Observable side effects of one `save_audio_item` call.  `load` is the
call into `TrackLoader::load_track` (the remote fetch + decrypt),
`runScript` the spawn of the external tagging process `tag_ogg.sh`, and
`writeFile` the raw fallback write of the audio bytes. -/
inductive SaveEffect where
  | load (spotify_id : Nat)
  | runScript (path : String)
  | writeFile (path : String)
  deriving DecidableEq, Repr

/-- Embedding of `ItemsProcessor::run_helper_script` (mod.rs:238-273).  Only the `ogg`
extension has a helper; `helper_ok` abstracts whether the external process
spawns, accepts the bytes and exits zero.  Returns the result together
with the spawn effect (none is produced for other extensions, whose arm
errors before spawning anything). -/
def run_helper_script (ext : String) (helper_ok : Bool) (full_path : String) :
    Except Error Unit × List SaveEffect :=
  if ext == "ogg" then
    if helper_ok then (.ok (), [.runScript full_path])
    else (.error (.internal "Helper script returned an error"), [.runScript full_path])
  else
    (.error (.internal ("No script for extension " ++ ext)), [])

/-- Embedding of `ItemsProcessor::save_audio_item` (mod.rs:169-236).  `path_exists`
models `full_path.exists()` on the filesystem.  The call loads the track
first; then requires a first cover (mod.rs:193-196); then computes the
extension and destination path; if the destination already exists it
returns `Ok` at once (mod.rs:211-217); otherwise it runs the helper
script, falling back to a raw write of the buffer when the helper fails.
The returned list is the trace of observable effects in order. -/
def save_audio_item (s : Session) (path_exists : String → Bool) (helper_ok : Bool)
    (spotify_id : Nat) (dir_path : String) : Except Error Unit × List SaveEffect :=
  match load_track s spotify_id with
  | .error e => (.error e, [.load spotify_id])
  | .ok track_data =>
    let audio_item := track_data.audio_item
    match audio_item.covers.head? with
    | none => (.error (.not_found "No covers available for this audio item"), [.load spotify_id])
    | some _cover =>
      match extensionFor track_data.audio_file_format with
      | none => (.error (.internal "Unsupported audio format"), [.load spotify_id])
      | some ext =>
        let full_path := dest_path dir_path audio_item ext
        if path_exists full_path then
          (.ok (), [.load spotify_id])
        else
          match run_helper_script ext helper_ok full_path with
          | (.ok _, effs) => (.ok (), .load spotify_id :: effs)
          | (.error _, effs) =>
              (.ok (), .load spotify_id :: (effs ++ [.writeFile full_path]))

namespace ItemsProcessor

/-- Constant `ItemsProcessor::DELAY_BETWEEN_ITEMS` (mod.rs:40), in seconds. -/
def DELAY_BETWEEN_ITEMS : Nat := 10

/-- Constant `ItemsProcessor::MAX_PENALTY_DELAY` (mod.rs:41), in seconds. -/
def MAX_PENALTY_DELAY : Nat := 300

end ItemsProcessor

/-- How one run of the `process_single_item` retry loop ended.
`done`: a save succeeded (loop broke after resetting the penalty).
`abandoned`: a non-key-denied failure was logged and the loop broke.
`fatal`: the penalty exceeded the ceiling and the loop returned `Err`.
`retrying`: the scripted outcomes ran out while the loop was still
retrying (the finite script under-determines the unbounded source loop). -/
inductive ItemStatus where
  | done
  | abandoned
  | fatal
  | retrying
  deriving DecidableEq, Repr

/-- Result of one `process_single_item` run: how it ended, the final value
of `penalty_delay` (seconds), and the list of penalty sleeps performed, in
order. -/
structure ItemRun where
  status : ItemStatus
  penalty_delay : Nat
  sleeps : List Nat
  deriving DecidableEq, Repr

/-- The message of the `Fatal` abort (mod.rs:149-151). -/
def fatalMsg : String := "Error: We cannot delay anymore..., exiting."

/-- Embedding of `ItemsProcessor::process_single_item` (mod.rs:132-167).  The loop's
successive `save_audio_item` results are abstracted as the scripted list
`outcomes` (one entry per attempt).  On `Ok`: reset `penalty_delay` to 0
and break.  On an error that downcasts to `AudioKeyError::AesKey`: add 60
seconds to `penalty_delay`; if it now exceeds `MAX_PENALTY_DELAY` return
the fatal error, else sleep the new `penalty_delay` and retry.  On any
other error: log, break (the item is abandoned, the loop returns `Ok`). -/
def process_single_item (outcomes : List (Except Error Unit)) (penalty_delay : Nat) : ItemRun :=
  match outcomes with
  | [] => { status := .retrying, penalty_delay := penalty_delay, sleeps := [] }
  | o :: rest =>
    match o with
    | .ok _ => { status := .done, penalty_delay := 0, sleeps := [] }
    | .error e =>
      if e = Error.aesKeyDenied then
        let p := penalty_delay + 60
        if p > ItemsProcessor.MAX_PENALTY_DELAY then
          { status := .fatal, penalty_delay := p, sleeps := [] }
        else
          let r := process_single_item rest p
          { status := r.status, penalty_delay := r.penalty_delay, sleeps := p :: r.sleeps }
      else
        { status := .abandoned, penalty_delay := penalty_delay, sleeps := [] }

/-- Observable side effects of `process_items`: creating a group directory,
attempting an item (one full `process_single_item` run), a penalty sleep
inside that run, and the fixed pacing sleep between items of a group. -/
inductive Effect where
  | mkdir (path : String)
  | attemptItem (spotify_id : Nat)
  | penaltySleep (secs : Nat)
  | pacingSleep (secs : Nat)
  deriving DecidableEq, Repr

/-- The effect trace of one `process_single_item` run on item `spotify_id`. -/
def itemPenaltyEffects (spotify_id : Nat) (r : ItemRun) : List Effect :=
  Effect.attemptItem spotify_id :: r.sleeps.map Effect.penaltySleep

/-- The inner item loop of `ItemsProcessor::process_items` (mod.rs:122-127)
over one group's member list: process each item; between consecutive items
(`index != len - 1`) sleep `DELAY_BETWEEN_ITEMS`.  A `fatal` item run makes
the whole call return the fatal error at once (`?` propagation); `retrying`
(exhausted script) is reported as `none`.  Returns (result, final
`penalty_delay`, effect trace). -/
def process_group (script : Nat → List (Except Error Unit)) :
    List Nat → Nat → Option (Except Error Unit) × Nat × List Effect
  | [], penalty_delay => (some (.ok ()), penalty_delay, [])
  | spotify_id :: rest, penalty_delay =>
    let r := process_single_item (script spotify_id) penalty_delay
    let effs := itemPenaltyEffects spotify_id r
    match r.status with
    | .fatal => (some (.error (.internal fatalMsg)), r.penalty_delay, effs)
    | .retrying => (none, r.penalty_delay, effs)
    | _ =>
      match rest with
      | [] => (some (.ok ()), r.penalty_delay, effs)
      | _ :: _ =>
        let (res, p2, effs2) := process_group script rest r.penalty_delay
        (res, p2, effs ++ Effect.pacingSleep ItemsProcessor.DELAY_BETWEEN_ITEMS :: effs2)

/-- The group loop of `ItemsProcessor::process_items` (mod.rs:116-128):
for each (group path, member list) pair, skip the group when its member
set is empty (mod.rs:117-119), otherwise create the destination directory
with `fs::create_dir_all(&dir_path)?` (mod.rs:121) — modelled by the
fallible `mkdir` collaborator, whose error propagates and stops the whole
run — and run the item loop; an error result stops the remaining groups. -/
def process_groups (script : Nat → List (Except Error Unit)) (base_path : String)
    (mkdir : String → Except Error Unit) :
    List (String × List Nat) → Nat → Option (Except Error Unit) × Nat × List Effect
  | [], penalty_delay => (some (.ok ()), penalty_delay, [])
  | (group_path, spotify_ids) :: rest, penalty_delay =>
    if spotify_ids.isEmpty then
      process_groups script base_path mkdir rest penalty_delay
    else
      let dir_path := base_path ++ "/" ++ group_path
      match mkdir dir_path with
      | .error e => (some (.error e), penalty_delay, [Effect.mkdir dir_path])
      | .ok _ =>
        let (res, p1, effs) := process_group script spotify_ids penalty_delay
        match res with
        | some (.ok _) =>
          let (res2, p2, effs2) := process_groups script base_path mkdir rest p1
          (res2, p2, Effect.mkdir dir_path :: (effs ++ effs2))
        | _ => (res, p1, Effect.mkdir dir_path :: effs)

/-- The per-run mutable state of `ItemsProcessor` that `process_items`
touches: the grouping store `grouped_ids` (the HashMap modelled as an
association list in iteration order) and `penalty_delay` (seconds). -/
structure ItemsProcessorState where
  grouped_ids : List (String × List Nat)
  penalty_delay : Nat
  deriving DecidableEq, Repr

/-- Embedding of `ItemsProcessor::process_items` (mod.rs:110-130).  An empty store
returns `Ok` at once (mod.rs:111-114); otherwise `mem::take` drains the
store (mod.rs:115) — leaving it empty for the rest of the call whatever
happens — and the group loop runs over the taken contents.  Returns
(result, state after the call, effect trace). -/
def process_items (script : Nat → List (Except Error Unit)) (base_path : String)
    (mkdir : String → Except Error Unit) (st : ItemsProcessorState) :
    Option (Except Error Unit) × ItemsProcessorState × List Effect :=
  if st.grouped_ids.isEmpty then
    (some (.ok ()), st, [])
  else
    let taken := st.grouped_ids
    let (res, p, effs) := process_groups script base_path mkdir taken st.penalty_delay
    (res, { grouped_ids := [], penalty_delay := p }, effs)

/-! ## Concrete scenarios used by the claim theorems and witnesses -/

/-- Concrete Ogg Vorbis item used to evaluate the header-strip behavior. -/
def oggItemC1 : AudioItem :=
  { track_id := 1, uri := "spotify:track:x", name := "T", availability := none,
    files := [(.OGG_VORBIS_320, 5)], alternatives := none, covers := ["c"],
    unique_fields := .Track ["A"] "Alb" }

/-- Concrete session whose decrypted stream for the item is 168 bytes of
value 7 (one byte more than the 0xa7-byte header). -/
def sOggC1 : Session :=
  { get_file := fun _ => .ok oggItemC1,
    open_file := fun _ _ => .ok (List.replicate 168 7),
    audio_key := fun _ _ => .ok 0,
    decrypt := fun _ b => b }


/-- Concrete item offering only an unsupported (AAC) encoding. -/
def aacItemC3 : AudioItem :=
  { track_id := 3, uri := "spotify:track:y", name := "N", availability := none,
    files := [(.AAC_160, 9)], alternatives := none, covers := ["c"],
    unique_fields := .Track ["A"] "Alb" }

/-- Concrete session serving `aacItemC3`. -/
def sAacC3 : Session :=
  { get_file := fun _ => .ok aacItemC3,
    open_file := fun _ _ => .ok [],
    audio_key := fun _ _ => .ok 0,
    decrypt := fun _ b => b }


/-- Concrete alternative items: the first is unavailable, the second is
available with a playable file, the third's fetch fails remotely. -/
def altBadC4 : AudioItem :=
  { track_id := 11, uri := "spotify:track:b", name := "B",
    availability := some "region locked",
    files := [(.MP3_320, 6)], alternatives := none, covers := ["c"],
    unique_fields := .Track ["A"] "Alb" }

/-- The qualifying alternative of the C4 witness scenario. -/
def altGoodC4 : AudioItem :=
  { track_id := 12, uri := "spotify:track:g", name := "G", availability := none,
    files := [(.OGG_VORBIS_320, 5)], alternatives := none, covers := ["c"],
    unique_fields := .Track ["A"] "Alb" }

/-- The primary item of the C4 witness scenario: available, no files,
three alternatives. -/
def primaryC4 : AudioItem :=
  { track_id := 10, uri := "spotify:track:p", name := "P", availability := none,
    files := [], alternatives := some [11, 12, 13], covers := ["c"],
    unique_fields := .Track ["A"] "Alb" }

/-- Session of the C4 witness scenario. -/
def sAltC4 : Session :=
  { get_file := fun spotify_id =>
      if spotify_id = 11 then .ok altBadC4
      else if spotify_id = 12 then .ok altGoodC4
      else if spotify_id = 13 then .error (.remote "fetch failed")
      else .ok primaryC4,
    open_file := fun _ _ => .ok (List.replicate 200 1),
    audio_key := fun _ _ => .ok 0,
    decrypt := fun _ b => b }


/-- Recognizer of the inter-item pacing sleep effect. -/
def isPacingSleep : Effect → Bool
  | .pacingSleep _ => true
  | _ => false

/-- The pacing-sleep count the spec prescribes for a drained store: a
group of N member items contributes N - 1 inter-item pacing sleeps (Nat
subtraction, so an empty or singleton group contributes none). -/
def pacingBudget : List (String × List Nat) → Nat
  | [] => 0
  | (_, ids) :: rest => (ids.length - 1) + pacingBudget rest

/-- Directory creation that always fails (C5 scenario): models
`fs::create_dir_all` returning an `io::Error`. -/
def mkdirFailC5 : String → Except Error Unit :=
  fun _ => .error (.ioError "permission denied")

/-- Session whose item fetch always fails remotely (C9 scenario). -/
def sFailC9 : Session :=
  { get_file := fun _ => .error (.remote "offline"),
    open_file := fun _ _ => .ok [],
    audio_key := fun _ _ => .ok 0,
    decrypt := fun _ b => b }

/-! ## Helper lemmas -/

/-- When the item is available and directly has files,
`find_available_alternative` returns the item itself (loader.rs:25-26). -/
theorem find_available_alternative_self (s : Session) (item : AudioItem)
    (hav : item.availability = none) (hfiles : item.files ≠ []) :
    find_available_alternative s item = some item := by
  simp [find_available_alternative, hav, hfiles]

/-- Characterization of a successful `findSome?` over a format list: the
returned format is present in the file map, and every format strictly
before it in the list is absent. -/
theorem findSome_format_first (files : List (AudioFileFormat × Nat)) :
    ∀ (l : List AudioFileFormat) (f : AudioFileFormat) (fid : Nat),
      (l.findSome? (fun format =>
        match filesGet files format with
        | some file_id => some (format, file_id)
        | none => none)) = some (f, fid) →
      f ∈ l ∧ filesGet files f = some fid ∧
        ∀ g ∈ l.takeWhile (fun g => !(g == f)), filesGet files g = none := by
  intro l
  induction l with
  | nil => intro f fid h; simp at h
  | cons a rest ih =>
    intro f fid h
    rw [List.findSome?_cons] at h
    cases hga : filesGet files a with
    | some fid0 =>
      rw [hga] at h
      simp only [Option.some.injEq, Prod.mk.injEq] at h
      obtain ⟨hf, hfid⟩ := h
      subst hf; subst hfid
      refine ⟨List.mem_cons_self _ _, hga, ?_⟩
      intro g hg
      rw [List.takeWhile_cons] at hg
      simp at hg
    | none =>
      rw [hga] at h
      obtain ⟨hmem, hget, htw⟩ := ih f fid h
      refine ⟨List.mem_cons_of_mem _ hmem, hget, ?_⟩
      intro g hg
      rw [List.takeWhile_cons] at hg
      by_cases haf : (a == f)
      · simp [haf] at hg
      · rw [if_pos (by simpa using haf)] at hg
        rcases List.mem_cons.mp hg with hga2 | hgrest
        · subst hga2; exact hga
        · exact htw g hgrest

/-! ## C1 -/

/-- C1: the claim says that for an Ogg Vorbis encoding the returned
`audio_buffer` has the first 0xa7 bytes removed.  The code computes the
stripped copy but discards it (loader.rs:160 shadows `decrypted_buffer`
inside the `if` block), so `load_track` returns the full decrypted
stream: at this concrete Ogg Vorbis input the returned buffer is the
unstripped 168-byte stream, which differs from the stripped buffer the
claim (and spec §4.4 step 6) prescribes. -/
theorem C1_ogg_header_not_stripped :
    (load_track sOggC1 1).toOption.map (fun td => td.audio_buffer) =
        some (List.replicate 168 7) ∧
    (load_track sOggC1 1).toOption.map (fun td => td.audio_file_format) =
        some AudioFileFormat.OGG_VORBIS_320 ∧
    spec_stripped_buffer AudioFileFormat.OGG_VORBIS_320 (List.replicate 168 7) ≠
        List.replicate 168 7 := by
  refine ⟨rfl, rfl, by decide⟩

/-! ## C3 -/

/-- C3: `load_track` selects the encoding by scanning the fixed priority
list `formats` and taking the first one present in the item's file map:
a successful selection means the chosen format is in the list, maps to
the returned file id, and every strictly higher-priority format is absent
from the file map; if no format of the list is present the selection is
empty and `load_track` fails with the no-supported-format error (the
error built at loader.rs:106-109, the failure the spec's taxonomy calls
`UnsupportedFormat`). -/
theorem C3_format_priority_selection :
    (∀ (files : List (AudioFileFormat × Nat)) (f : AudioFileFormat) (fid : Nat),
        select_format files = some (f, fid) →
        f ∈ formats ∧ filesGet files f = some fid ∧
          ∀ g ∈ formats.takeWhile (fun g => !(g == f)), filesGet files g = none) ∧
    (∀ files : List (AudioFileFormat × Nat),
        (∀ f ∈ formats, filesGet files f = none) → select_format files = none) ∧
    (∀ (s : Session) (spotify_id : Nat) (item : AudioItem),
        s.get_file spotify_id = .ok item → item.availability = none →
        item.files ≠ [] → select_format item.files = none →
        load_track s spotify_id =
          .error (.unavailable ("<" ++ item.name ++ "> is not available in any supported format"))) := by
  refine ⟨?_, ?_, ?_⟩
  · intro files f fid h
    exact findSome_format_first files formats f fid h
  · intro files h
    have h1 := h .OGG_VORBIS_320 (by simp [formats])
    have h2 := h .MP3_320 (by simp [formats])
    have h3 := h .MP3_256 (by simp [formats])
    have h4 := h .OGG_VORBIS_160 (by simp [formats])
    have h5 := h .MP3_160 (by simp [formats])
    have h6 := h .OGG_VORBIS_96 (by simp [formats])
    have h7 := h .MP3_96 (by simp [formats])
    simp [select_format, formats, List.findSome?_cons, h1, h2, h3, h4, h5, h6, h7]
  · intro s spotify_id item hget hav hfiles hsel
    simp only [load_track, hget, find_available_alternative_self s item hav hfiles, hsel]

/-- Witness for C3: with both a low-tier (`MP3_96`) and a high-tier
(`OGG_VORBIS_320`) encoding present the high-tier one is selected, and a
file map with no supported encoding makes `load_track` fail with the
no-supported-format error. -/
theorem C3_format_priority_selection_witness :
    filesGet [(AudioFileFormat.MP3_96, 1), (AudioFileFormat.OGG_VORBIS_320, 2)]
        AudioFileFormat.OGG_VORBIS_320 = some 2 ∧
    load_track sAacC3 3 =
      .error (.unavailable "<N> is not available in any supported format") := by
  constructor
  · exact (C3_format_priority_selection.1 _ _ _ (by rfl)).2.1
  · exact C3_format_priority_selection.2.2 sAacC3 3 aacItemC3 (by rfl) (by rfl)
      (by decide) (by rfl)

/-! ## C4 -/

/-- C4: availability resolution of `load_track`.  An item reporting an
unavailability reason fails with the `Unavailable` error; an available
item with files is used directly; an available item without files but
with alternatives resolves to the first alternative that both fetches
`Ok` and reports itself available (the source races the fetches, the
embedding sequentialises the race in list order), and if no alternative
qualifies, or the item has neither files nor alternatives, `load_track`
fails with the `Unavailable` error; finally, every successful load's
`audio_item` is what `find_available_alternative` resolved. -/
theorem C4_availability_resolution :
    (∀ (s : Session) (spotify_id : Nat) (item : AudioItem),
        s.get_file spotify_id = .ok item → item.availability.isSome →
        load_track s spotify_id = .error (.unavailable "Item is not available")) ∧
    (∀ (s : Session) (item : AudioItem),
        item.availability = none → item.files ≠ [] →
        find_available_alternative s item = some item) ∧
    (∀ (s : Session) (item : AudioItem) (alts : List Nat),
        item.availability = none → item.files = [] → item.alternatives = some alts →
        find_available_alternative s item =
          ((alts.filterMap (fun alt_id => (s.get_file alt_id).toOption)).filter
            (fun x => availabilityOk x)).head?) ∧
    (∀ (s : Session) (spotify_id : Nat) (item : AudioItem),
        s.get_file spotify_id = .ok item → item.availability = none →
        item.files = [] → item.alternatives = none →
        load_track s spotify_id = .error (.unavailable "Item is not available")) ∧
    (∀ (s : Session) (spotify_id : Nat) (item : AudioItem) (alts : List Nat),
        s.get_file spotify_id = .ok item → item.availability = none →
        item.files = [] → item.alternatives = some alts →
        ((alts.filterMap (fun alt_id => (s.get_file alt_id).toOption)).filter
          (fun x => availabilityOk x)) = [] →
        load_track s spotify_id = .error (.unavailable "Item is not available")) ∧
    (∀ (s : Session) (spotify_id : Nat) (td : LoadedTrackData),
        load_track s spotify_id = .ok td →
        ∃ audio, s.get_file spotify_id = .ok audio ∧
          find_available_alternative s audio = some td.audio_item) := by
  refine ⟨?_, ?_, ?_, ?_, ?_, ?_⟩
  · intro s spotify_id item hget hav
    simp only [load_track, hget, find_available_alternative, if_pos hav]
  · intro s item hav hfiles
    exact find_available_alternative_self s item hav hfiles
  · intro s item alts hav hfiles halts
    simp [find_available_alternative, hav, hfiles, halts]
  · intro s spotify_id item hget hav hfiles halts
    simp only [load_track, hget, find_available_alternative, hav, hfiles, halts]
    simp
  · intro s spotify_id item alts hget hav hfiles halts hnone
    simp only [load_track, hget, find_available_alternative, hav, hfiles, halts, hnone]
    simp [hnone]
  · intro s spotify_id td h
    cases hget : s.get_file spotify_id with
    | error e => simp [load_track, hget] at h
    | ok audio =>
      refine ⟨audio, rfl, ?_⟩
      cases hfa : find_available_alternative s audio with
      | none => simp [load_track, hget, hfa] at h
      | some chosen =>
        cases hsel : select_format chosen.files with
        | none => simp [load_track, hget, hfa, hsel] at h
        | some t =>
          obtain ⟨format, file_id⟩ := t
          cases hrate : stream_data_rate format with
          | none => simp [load_track, hget, hfa, hsel, hrate] at h
          | some rate =>
            cases hopen : s.open_file file_id rate with
            | error e => simp [load_track, hget, hfa, hsel, hrate, hopen] at h
            | ok buffer =>
              cases hkey : s.audio_key spotify_id file_id with
              | error e => simp [load_track, hget, hfa, hsel, hrate, hopen, hkey] at h
              | ok key =>
                simp only [load_track, hget, hfa, hsel, hrate, hopen, hkey,
                  Except.ok.injEq] at h
                subst h
                rfl

/-- Witness for C4: of three alternatives where only the second resolves
as available, that second alternative's item is the one resolved. -/
theorem C4_availability_resolution_witness :
    find_available_alternative sAltC4 primaryC4 = some altGoodC4 := by
  have h := C4_availability_resolution.2.2.1 sAltC4 primaryC4 [11, 12, 13]
    (by rfl) (by rfl) (by rfl)
  rw [h]
  rfl

/-! ## C2 -/

/-- C2 counterexample: the claim says a fourth consecutive key-denied
failure pushes the cumulative delay past the 300-second ceiling and
aborts the run as `Fatal`.  In the code the fourth failure only raises
`penalty_delay` to 4 * 60 = 240 seconds, which does not exceed 300: the
run is not aborted and the item is still being retried (the loop slept
60, 120, 180 and 240 seconds). -/
theorem C2_fourth_key_denied_not_fatal :
    process_single_item (List.replicate 4 (Except.error Error.aesKeyDenied)) 0 =
      { status := .retrying, penalty_delay := 240, sleeps := [60, 120, 180, 240] } ∧
    (process_single_item (List.replicate 4 (Except.error Error.aesKeyDenied)) 0).status ≠
      ItemStatus.fatal := by
  decide

/-- C2 (amended): starting from `penalty_delay = 0`, each key-denied
failure of the save step increases `penalty_delay` by exactly 60 seconds
and the same item is retried after sleeping that delay, as long as the
new value does not exceed the 300-second ceiling; three consecutive
key-denied failures raise `penalty_delay` to 180 seconds with the item
still retried; a fourth raises it to 240 seconds, still retried; only
the sixth consecutive key-denied failure, raising `penalty_delay` to 360
seconds past the ceiling, aborts the run as `Fatal`; and any successful
save resets `penalty_delay` to 0. -/
theorem C2_penalty_backoff_amended :
    (∀ (rest : List (Except Error Unit)) (p : Nat),
        process_single_item (Except.ok () :: rest) p =
          { status := .done, penalty_delay := 0, sleeps := [] }) ∧
    (∀ (rest : List (Except Error Unit)) (p : Nat),
        p + 60 ≤ ItemsProcessor.MAX_PENALTY_DELAY →
        process_single_item (Except.error Error.aesKeyDenied :: rest) p =
          { status := (process_single_item rest (p + 60)).status,
            penalty_delay := (process_single_item rest (p + 60)).penalty_delay,
            sleeps := (p + 60) :: (process_single_item rest (p + 60)).sleeps }) ∧
    (∀ (rest : List (Except Error Unit)) (p : Nat),
        p + 60 > ItemsProcessor.MAX_PENALTY_DELAY →
        process_single_item (Except.error Error.aesKeyDenied :: rest) p =
          { status := .fatal, penalty_delay := p + 60, sleeps := [] }) ∧
    process_single_item (List.replicate 3 (Except.error Error.aesKeyDenied)) 0 =
      { status := .retrying, penalty_delay := 180, sleeps := [60, 120, 180] } ∧
    process_single_item (List.replicate 6 (Except.error Error.aesKeyDenied)) 0 =
      { status := .fatal, penalty_delay := 360, sleeps := [60, 120, 180, 240, 300] } := by
  refine ⟨?_, ?_, ?_, by decide, by decide⟩
  · intro rest p
    rfl
  · intro rest p h
    have hc : ¬ (p + 60 > ItemsProcessor.MAX_PENALTY_DELAY) := by omega
    simp [process_single_item, hc]
  · intro rest p h
    simp [process_single_item, h]

/-- Witness for C2 (amended): one key-denied failure from penalty 0 is
below the ceiling, so the loop sleeps 60 seconds and keeps retrying. -/
theorem C2_penalty_backoff_amended_witness :
    0 + 60 ≤ ItemsProcessor.MAX_PENALTY_DELAY ∧
    process_single_item [Except.error Error.aesKeyDenied] 0 =
      { status := .retrying, penalty_delay := 60, sleeps := [60] } := by
  refine ⟨by decide, ?_⟩
  exact (C2_penalty_backoff_amended.2.1 [] 0 (by decide)).trans (by decide)

/-! ## C5 -/

/-- Sub-lemma for C5: the only error the item loop of a single group can
return is the fatal backoff-ceiling error. -/
theorem process_group_error_only_fatal (script : Nat → List (Except Error Unit)) :
    ∀ (ids : List Nat) (p : Nat) (e : Error),
      (process_group script ids p).1 = some (.error e) →
      e = Error.internal fatalMsg := by
  intro ids
  induction ids with
  | nil => intro p e h; simp [process_group] at h
  | cons a rest ih =>
    intro p e h
    simp only [process_group] at h
    cases hst : (process_single_item (script a) p).status <;> rw [hst] at h
    · cases rest with
      | nil => simp at h
      | cons b rest2 =>
        simp only at h
        exact ih _ e (by
          rcases hpg : process_group script (b :: rest2)
            (process_single_item (script a) p).penalty_delay with ⟨res, p2, effs2⟩
          rw [hpg] at h
          simpa using h)
    · cases rest with
      | nil => simp at h
      | cons b rest2 =>
        simp only at h
        exact ih _ e (by
          rcases hpg : process_group script (b :: rest2)
            (process_single_item (script a) p).penalty_delay with ⟨res, p2, effs2⟩
          rw [hpg] at h
          simpa using h)
    · simp at h
      exact h.symm
    · simp at h

/-- C5 counterexample: the claim says only the Fatal backoff-ceiling
condition stops the entire run, but `fs::create_dir_all(&dir_path)?`
(mod.rs:121) propagates its I/O error out of `process_items`: with a
failing directory creation, a run over a single one-item group whose
save would succeed stops with that non-Fatal error. -/
theorem C5_only_fatal_counterexample :
    (process_items (fun _ => [Except.ok ()]) "base" mkdirFailC5
        { grouped_ids := [("g", [1])], penalty_delay := 0 }).1 =
      some (.error (.ioError "permission denied")) ∧
    Error.ioError "permission denied" ≠ Error.internal fatalMsg := by
  exact ⟨rfl, by decide⟩

/-- C5 (amended): a per-item failure that is not the key-denied error
makes the retry loop break immediately with the item abandoned —
`penalty_delay` untouched, no penalty sleep, no further attempt
regardless of what later attempts would have returned — and the loop
returns `Ok`, so the group loop moves on to the next item; within the
item loops the only error is the fatal backoff-ceiling error, and a
whole run stops only on that fatal error or on a failing
destination-directory creation, whose I/O error propagates. -/
theorem C5_abandon_and_failure_propagation :
    (∀ (e : Error) (rest : List (Except Error Unit)) (p : Nat),
        e ≠ Error.aesKeyDenied →
        process_single_item (.error e :: rest) p =
          { status := .abandoned, penalty_delay := p, sleeps := [] }) ∧
    (∀ (script : Nat → List (Except Error Unit)) (spotify_id : Nat)
        (ids : List Nat) (p : Nat),
        (process_single_item (script spotify_id) p).status = .abandoned →
        (process_group script (spotify_id :: ids) p).1 =
          (process_group script ids
            (process_single_item (script spotify_id) p).penalty_delay).1) ∧
    (∀ (script : Nat → List (Except Error Unit)) (ids : List Nat)
        (p : Nat) (e : Error),
        (process_group script ids p).1 = some (.error e) →
        e = Error.internal fatalMsg) ∧
    (∀ (script : Nat → List (Except Error Unit)) (base_path : String)
        (mkdir : String → Except Error Unit)
        (groups : List (String × List Nat)) (p : Nat) (e : Error),
        (process_groups script base_path mkdir groups p).1 = some (.error e) →
        e = Error.internal fatalMsg ∨ ∃ dir_path, mkdir dir_path = .error e) := by
  refine ⟨?_, ?_, process_group_error_only_fatal, ?_⟩
  · intro e rest p h
    simp [process_single_item, h]
  · intro script spotify_id ids p h
    cases ids with
    | nil => simp [process_group, h]
    | cons b rest2 =>
      simp [process_group, h]
  · intro script base_path mkdir groups
    induction groups with
    | nil => intro p e h; simp [process_groups] at h
    | cons g rest ih =>
      intro p e h
      obtain ⟨group_path, ids⟩ := g
      by_cases hempty : ids.isEmpty
      · rw [process_groups, if_pos hempty] at h
        exact ih p e h
      · rw [process_groups, if_neg hempty] at h
        cases hmk : mkdir (base_path ++ "/" ++ group_path) with
        | error e2 =>
          simp only [hmk] at h
          have he : e2 = e := by simpa using h
          subst he
          exact Or.inr ⟨base_path ++ "/" ++ group_path, hmk⟩
        | ok u =>
          obtain ⟨⟩ := u
          simp only [hmk] at h
          rcases hpg : process_group script ids p with ⟨res, p1, effs⟩
          rw [hpg] at h
          match res, h with
          | some (.ok ()), h =>
            simp only at h
            rcases hpg2 : process_groups script base_path mkdir rest p1
              with ⟨res2, p2, effs2⟩
            rw [hpg2] at h
            simp only at h
            exact ih p1 e (by rw [hpg2]; simpa using h)
          | some (.error e2), h =>
            simp only at h
            have he : e2 = e := by simpa using h
            subst he
            exact Or.inl (process_group_error_only_fatal script ids p e2 (by rw [hpg]))
          | none, h => simp at h

/-- Witness for C5 (amended): a remote failure (not key-denied) abandons
the item immediately with the penalty untouched. -/
theorem C5_abandon_and_failure_propagation_witness :
    process_single_item [Except.error (Error.remote "boom")] 25 =
      { status := .abandoned, penalty_delay := 25, sleeps := [] } := by
  exact C5_abandon_and_failure_propagation.1 (Error.remote "boom") [] 25 (by decide)

/-! ## C6 -/

/-- C6: `process_items` drains the grouping store: after any call —
whether the store was empty, the run succeeded, or it stopped with an
error — the store is empty; consequently a second call immediately after
observes an empty store and returns `Ok` with no effects (the early
return of mod.rs:111-114), i.e. the second drain yields nothing. -/
theorem C6_drain_semantics :
    (∀ (script : Nat → List (Except Error Unit)) (base_path : String)
        (mkdir : String → Except Error Unit) (st : ItemsProcessorState),
        ((process_items script base_path mkdir st).2.1).grouped_ids = []) ∧
    (∀ (script : Nat → List (Except Error Unit)) (base_path : String)
        (mkdir : String → Except Error Unit) (st : ItemsProcessorState),
        process_items script base_path mkdir
            ((process_items script base_path mkdir st).2.1) =
          (some (.ok ()), (process_items script base_path mkdir st).2.1, [])) := by
  have hdrained : ∀ (script : Nat → List (Except Error Unit)) (base_path : String)
      (mkdir : String → Except Error Unit) (st : ItemsProcessorState),
      ((process_items script base_path mkdir st).2.1).grouped_ids = [] := by
    intro script base_path mkdir st
    by_cases h : st.grouped_ids.isEmpty
    · rw [process_items, if_pos h]
      simpa using h
    · simp [process_items, h]
  refine ⟨hdrained, ?_⟩
  intro script base_path mkdir st
  have h1 := hdrained script base_path mkdir st
  rw [process_items, if_pos (by simp [h1])]

/-! ## C7 -/

/-- The per-item effect trace contains no pacing sleep (its sleeps are
penalty sleeps). -/
theorem itemPenaltyEffects_no_pacing (spotify_id : Nat) (r : ItemRun) :
    (itemPenaltyEffects spotify_id r).filter isPacingSleep = [] := by
  rw [List.filter_eq_nil_iff]
  intro a ha
  rcases List.mem_cons.mp ha with h | h
  · subst h; simp [isPacingSleep]
  · rcases List.mem_map.mp h with ⟨sec, _, hval⟩
    subst hval
    simp [isPacingSleep]

/-- Sub-lemma for C7: a group run that completes without a fatal abort
performs exactly `N - 1` pacing sleeps, each of `DELAY_BETWEEN_ITEMS`
seconds, for a group of `N` members. -/
theorem process_group_pacing (script : Nat → List (Except Error Unit)) :
    ∀ (ids : List Nat) (p : Nat),
      (process_group script ids p).1 = some (.ok ()) →
      ((process_group script ids p).2.2).filter isPacingSleep =
        List.replicate (ids.length - 1)
          (Effect.pacingSleep ItemsProcessor.DELAY_BETWEEN_ITEMS) := by
  intro ids
  induction ids with
  | nil => intro p h; simp [process_group]
  | cons a rest ih =>
    intro p h
    simp only [process_group] at h ⊢
    cases hst : (process_single_item (script a) p).status
    case fatal => rw [hst] at h; simp at h
    case retrying => rw [hst] at h; simp at h
    case done =>
      rw [hst] at h
      cases rest with
      | nil => simpa using itemPenaltyEffects_no_pacing a _
      | cons b rest2 =>
        have h2 : (process_group script (b :: rest2)
            (process_single_item (script a) p).penalty_delay).1 =
              some (Except.ok ()) := by
          simpa using h
        have hih := ih (process_single_item (script a) p).penalty_delay h2
        simp [List.filter_append, itemPenaltyEffects_no_pacing, isPacingSleep, hih,
          List.replicate_succ, List.length_cons, Nat.succ_sub_one]
    case abandoned =>
      rw [hst] at h
      cases rest with
      | nil => simpa using itemPenaltyEffects_no_pacing a _
      | cons b rest2 =>
        have h2 : (process_group script (b :: rest2)
            (process_single_item (script a) p).penalty_delay).1 =
              some (Except.ok ()) := by
          simpa using h
        have hih := ih (process_single_item (script a) p).penalty_delay h2
        simp [List.filter_append, itemPenaltyEffects_no_pacing, isPacingSleep, hih,
          List.replicate_succ, List.length_cons, Nat.succ_sub_one]

/-- Sub-lemma for C7: over a whole successful run the pacing sleeps are
exactly the sum over groups of (group size - 1): none is added at group
boundaries. -/
theorem process_groups_pacing (script : Nat → List (Except Error Unit))
    (base_path : String) (mkdir : String → Except Error Unit) :
    ∀ (groups : List (String × List Nat)) (p : Nat),
      (process_groups script base_path mkdir groups p).1 = some (.ok ()) →
      (((process_groups script base_path mkdir groups p).2.2).filter
          isPacingSleep).length =
        pacingBudget groups := by
  intro groups
  induction groups with
  | nil => intro p h; simp [process_groups, pacingBudget]
  | cons g rest ih =>
    intro p h
    obtain ⟨group_path, ids⟩ := g
    by_cases hempty : ids.isEmpty
    · rw [process_groups, if_pos hempty] at h ⊢
      have hids : ids = [] := by simpa using hempty
      subst hids
      simpa [pacingBudget] using ih p h
    · rw [process_groups, if_neg hempty] at h ⊢
      cases hmk : mkdir (base_path ++ "/" ++ group_path) with
      | error e => simp [hmk] at h
      | ok u =>
        obtain ⟨⟩ := u
        simp only [hmk] at h ⊢
        rcases hpg : process_group script ids p with ⟨res, p1, effs⟩
        cases res with
        | none => rw [hpg] at h; simp at h
        | some r =>
          cases r with
          | error e2 => rw [hpg] at h; simp at h
          | ok u2 =>
            obtain ⟨⟩ := u2
            rw [hpg] at h
            have h2 : (process_groups script base_path mkdir rest p1).1 =
                some (Except.ok ()) := by
              simpa using h
            have hgrp : effs.filter isPacingSleep =
                List.replicate (ids.length - 1)
                  (Effect.pacingSleep ItemsProcessor.DELAY_BETWEEN_ITEMS) := by
              have hg := process_group_pacing script ids p (by rw [hpg])
              rw [hpg] at hg
              exact hg
            have hih := ih p1 h2
            simp [isPacingSleep, List.filter_append, hgrp, hih, pacingBudget,
              List.length_append, List.length_replicate]

/-- C7: within one group of N member items a completed run performs
exactly N - 1 inter-item pacing sleeps, each of the fixed
`DELAY_BETWEEN_ITEMS` = 10 seconds: none after the last item of a group
and none extra at group boundaries (the whole-run pacing count is the sum
over groups of size - 1). -/
theorem C7_pacing_n_minus_one :
    (∀ (script : Nat → List (Except Error Unit)) (ids : List Nat) (p : Nat),
        (process_group script ids p).1 = some (.ok ()) →
        ((process_group script ids p).2.2).filter isPacingSleep =
          List.replicate (ids.length - 1)
            (Effect.pacingSleep ItemsProcessor.DELAY_BETWEEN_ITEMS)) ∧
    (∀ (script : Nat → List (Except Error Unit)) (base_path : String)
        (mkdir : String → Except Error Unit)
        (groups : List (String × List Nat)) (p : Nat),
        (process_groups script base_path mkdir groups p).1 = some (.ok ()) →
        (((process_groups script base_path mkdir groups p).2.2).filter
            isPacingSleep).length =
          pacingBudget groups) ∧
    ItemsProcessor.DELAY_BETWEEN_ITEMS = 10 :=
  ⟨process_group_pacing, process_groups_pacing, rfl⟩

/-- Witness for C7: a three-item group whose saves all succeed performs
exactly two 10-second pacing sleeps. -/
theorem C7_pacing_n_minus_one_witness :
    ((process_group (fun _ => [Except.ok ()]) [1, 2, 3] 0).2.2).filter isPacingSleep =
      List.replicate 2 (Effect.pacingSleep ItemsProcessor.DELAY_BETWEEN_ITEMS) := by
  exact C7_pacing_n_minus_one.1 (fun _ => [Except.ok ()]) [1, 2, 3] 0 (by rfl)

/-! ## C10 -/

/-- C10: a drained group whose member set is empty is skipped entirely
(mod.rs:117-119): the group loop continues as if the group were absent —
no directory creation, no item attempt, no sleep — and a store holding
only such a group makes `process_items` succeed with an empty effect
trace. -/
theorem C10_empty_group_skipped :
    (∀ (script : Nat → List (Except Error Unit)) (base_path : String)
        (mkdir : String → Except Error Unit)
        (group_path : String) (rest : List (String × List Nat)) (p : Nat),
        process_groups script base_path mkdir ((group_path, []) :: rest) p =
          process_groups script base_path mkdir rest p) ∧
    (∀ (script : Nat → List (Except Error Unit)) (base_path : String)
        (mkdir : String → Except Error Unit) (group_path : String) (p : Nat),
        process_items script base_path mkdir
            { grouped_ids := [(group_path, [])], penalty_delay := p } =
          (some (.ok ()), { grouped_ids := [], penalty_delay := p }, [])) := by
  constructor
  · intro script base_path mkdir group_path rest p
    rfl
  · intro script base_path mkdir group_path p
    rfl

/-! ## C8 -/

/-- C8: once a track has loaded successfully and has a cover, if the
computed destination path already exists, `save_audio_item` returns `Ok`
with no effect besides the load itself: the external tagging process is
not invoked and no file is written, so a repeated call for the same
identifier is a filesystem no-op (same `Ok` result, no write, no
overwrite). -/
theorem C8_existing_destination_skips_save :
    ∀ (s : Session) (path_exists : String → Bool) (helper_ok : Bool)
      (spotify_id : Nat) (dir_path : String) (td : LoadedTrackData) (ext : String),
      load_track s spotify_id = .ok td →
      td.audio_item.covers ≠ [] →
      extensionFor td.audio_file_format = some ext →
      path_exists (dest_path dir_path td.audio_item ext) = true →
      save_audio_item s path_exists helper_ok spotify_id dir_path =
        (.ok (), [SaveEffect.load spotify_id]) := by
  intro s path_exists helper_ok spotify_id dir_path td ext hload hcovers hext hexists
  cases hc : td.audio_item.covers with
  | nil => exact absurd hc hcovers
  | cons c cs =>
    simp [save_audio_item, hload, hc, hext, hexists]

/-- Witness for C8: the C1 scenario session with an always-true existence
test: the save returns `Ok` having only loaded. -/
theorem C8_existing_destination_skips_save_witness :
    save_audio_item sOggC1 (fun _ => true) true 1 "d" =
      (.ok (), [SaveEffect.load 1]) := by
  exact C8_existing_destination_skips_save sOggC1 (fun _ => true) true 1 "d"
    { audio_item := oggItemC1, audio_buffer := List.replicate 168 7,
      audio_file_format := .OGG_VORBIS_320 } "ogg" (by rfl) (by decide) (by rfl) (by rfl)

/-! ## C9 -/

/-- C9: the already-exists skip is decided only after a full track load:
`save_audio_item` always calls `load_track` first (every effect trace
starts with the load), so even with the destination present a failing
load makes the call return that error, and a loaded item with no covers
makes it return the no-covers error — the existence test is never
reached in those cases. -/
theorem C9_skip_decided_after_full_load :
    (∀ (s : Session) (path_exists : String → Bool) (helper_ok : Bool)
        (spotify_id : Nat) (dir_path : String) (e : Error),
        load_track s spotify_id = .error e →
        save_audio_item s path_exists helper_ok spotify_id dir_path =
          (.error e, [SaveEffect.load spotify_id])) ∧
    (∀ (s : Session) (path_exists : String → Bool) (helper_ok : Bool)
        (spotify_id : Nat) (dir_path : String) (td : LoadedTrackData),
        load_track s spotify_id = .ok td →
        td.audio_item.covers = [] →
        save_audio_item s path_exists helper_ok spotify_id dir_path =
          (.error (.not_found "No covers available for this audio item"),
            [SaveEffect.load spotify_id])) ∧
    (∀ (s : Session) (path_exists : String → Bool) (helper_ok : Bool)
        (spotify_id : Nat) (dir_path : String),
        (save_audio_item s path_exists helper_ok spotify_id dir_path).2.head? =
          some (SaveEffect.load spotify_id)) := by
  refine ⟨?_, ?_, ?_⟩
  · intro s path_exists helper_ok spotify_id dir_path e h
    simp [save_audio_item, h]
  · intro s path_exists helper_ok spotify_id dir_path td hload hc
    simp [save_audio_item, hload, hc]
  · intro s path_exists helper_ok spotify_id dir_path
    cases hl : load_track s spotify_id with
    | error e => simp [save_audio_item, hl]
    | ok td =>
      cases hc : td.audio_item.covers with
      | nil => simp [save_audio_item, hl, hc]
      | cons c cs =>
        cases hext : extensionFor td.audio_file_format with
        | none => simp [save_audio_item, hl, hc, hext]
        | some ext =>
          by_cases hpe : path_exists (dest_path dir_path td.audio_item ext) = true
          · simp [save_audio_item, hl, hc, hext, hpe]
          · rcases hrun : run_helper_script ext helper_ok
              (dest_path dir_path td.audio_item ext) with ⟨r, effs⟩
            cases r <;> simp [save_audio_item, hl, hc, hext, hpe, hrun]

/-- Witness for C9: with the destination reported as already existing but
the remote fetch failing, the save still returns the load error. -/
theorem C9_skip_decided_after_full_load_witness :
    save_audio_item sFailC9 (fun _ => true) true 4 "d" =
      (.error (.remote "offline"), [SaveEffect.load 4]) := by
  exact C9_skip_decided_after_full_load.1 sFailC9 (fun _ => true) true 4 "d"
    (.remote "offline") (by rfl)

end Rustify
